import Mathlib

/-!
Verification of the `lol_history_parser` repository.

The Python sources (`user.py`, `collection.py`, `utils.py`, `db_management.py`,
`main.py`) are shallowly embedded below.  Remote HTTP traffic is modelled by
explicit environment values (the pages a listing endpoint returns, the response
a match-detail endpoint returns), file-system state by explicit lists of
directory entries, and side effects (requests sent, `time.sleep` calls, file
writes) by explicit event traces.  Fallible Python code (raised exceptions)
is modelled with `Except` / `Option` error components.
-/

namespace UserM

/-- Result of `User.get_matches_by_queue` for one queue: the match ids the
recursion accumulated, and the listing requests it issued, each request being
the pair `(start_index, count)` that goes into the URL query string
(`start={start_index}&count=100`). -/
structure PageResult (α : Type) where
  ids : List α
  requests : List (Nat × Nat)
deriving DecidableEq, Repr

/-- `User.get_matches_by_queue` (user.py 145-185).  The listing endpoint is
modelled by the list `pages` of the successive pages it returns at offsets
`start_index`, `start_index + 100`, ...; a request beyond the end of `pages`
returns an empty page (the remote has no further matches).  The recursion
appends the received page to `matchs_list` and recurses with
`start_index + 100` exactly when the page has exactly 100 entries. -/
def get_matches_by_queue {α : Type} (matchs_list : List α) (start_index : Nat) :
    List (List α) → PageResult α
  | [] => ⟨matchs_list, [(start_index, 100)]⟩
  | page :: rest =>
    if page.length = 100 then
      let r := get_matches_by_queue (matchs_list ++ page) (start_index + 100) rest
      ⟨r.ids, (start_index, 100) :: r.requests⟩
    else
      ⟨matchs_list ++ page, [(start_index, 100)]⟩

/-- The fixed queue categories iterated by `User.get_all_matches`
(user.py 141): 400 normal draft, 420 ranked solo, 430 normal blind,
440 ranked flex, 450 ARAM. -/
def queues : List Nat := [400, 420, 430, 440, 450]

/-- `User.get_all_matches` (user.py 139-143): `matches_list = []`, then for
each queue in `queues` extend it with that queue's paginated ids.  `env q`
is the page stream the listing endpoint serves for queue `q`. -/
def get_all_matches {α : Type} (env : Nat → List (List α)) : List α :=
  queues.foldl (fun acc q => acc ++ (get_matches_by_queue [] 0 (env q)).ids) []

/-- Characterization of `get_matches_by_queue`: it consumes exactly the
longest prefix of full (length-100) pages plus the first short page after it,
and issues one request per page consumed, at offsets
`start, start + 100, start + 200, ...` each with `count = 100`. -/
theorem get_matches_by_queue_eq {α : Type} :
    ∀ (pages : List (List α)) (acc : List α) (start : Nat),
      get_matches_by_queue acc start pages =
        ⟨acc ++ (pages.takeWhile (fun p => p.length == 100)).flatten
             ++ (pages.dropWhile (fun p => p.length == 100)).headD [],
         (List.range ((pages.takeWhile (fun p => p.length == 100)).length + 1)).map
           (fun i => (start + 100 * i, 100))⟩ := by
  intro pages
  induction pages with
  | nil =>
    intro acc start
    simp [get_matches_by_queue, List.range_succ]
  | cons page rest ih =>
    intro acc start
    by_cases hp : page.length = 100
    · rw [get_matches_by_queue, if_pos hp, ih]
      have hb : (page.length == 100) = true := by simp [hp]
      simp only [List.takeWhile_cons, List.dropWhile_cons, hb, if_true,
        List.flatten_cons, List.length_cons, PageResult.mk.injEq]
      refine ⟨by simp [List.append_assoc], ?_⟩
      conv_rhs => rw [List.range_succ_eq_map]
      rw [List.map_cons, List.map_map]
      simp only [Nat.mul_zero, Nat.add_zero]
      congr 1
      apply List.map_congr_left
      intro i _
      simp only [Function.comp_apply, Nat.succ_eq_add_one]
      congr 1
      omega
    · rw [get_matches_by_queue, if_neg hp]
      have hb : (page.length == 100) = false := by simp [hp]
      simp [List.takeWhile_cons, List.dropWhile_cons, hb, List.range_succ]

/-- An outgoing request of the collector, by endpoint:
`account` is the identity-resolution call of `get_puuid`
(`/riot/account/v1/accounts/by-riot-id/{name}/{tag}`), `listing` one
page request of `get_matches_by_queue`
(`/lol/match/v5/matches/by-puuid/{puuid}/ids?queue=..&start=..&count=100`),
and `matchDetail` the detail call of `fetch_match`
(`/lol/match/v5/matches/{match_id}`). -/
inductive Request
  | account (name tag : String)
  | listing (puuid : String) (queue start : Nat)
  | matchDetail (match_id : String)
deriving DecidableEq, Repr

/-- The remote API as seen by one user: the puuid the account endpoint
returns for a (name, tag) pair, and the page stream the listing endpoint
serves for each queue.  Both model successful (HTTP 200) responses. -/
structure ApiEnv where
  puuid_of : String → String → String
  pages : Nat → List (List String)

/-- The `riot_id` dict handed to `User.__init__` (built by
`utils.create_account_info`). -/
structure RiotId where
  summoners_name : String
  summoners_tag : String
  summoners_region : String
  encoded_summoners_name : String
  encoded_summoners_tag : String
deriving DecidableEq, Repr

/-- A `User` object's attribute set.  `__init__` (user.py 31-45) assigns the
five `riot_id` fields, `puuid` and `matches_list`; it never assigns
`flex_matchs_list` or `solo_duo_matchs_list`, so those two attributes are
absent (`none`) on every object this code constructs — attribute reads on
them raise `AttributeError`. -/
structure User where
  summoners_name : String
  summoners_tag : String
  summoners_region : String
  encoded_summoners_name : String
  encoded_summoners_tag : String
  puuid : String
  matches_list : List String
  flex_matchs_list : Option (List String)
  solo_duo_matchs_list : Option (List String)
deriving DecidableEq, Repr

/-- The listing requests `get_all_matches` issues: for each queue, one
request per page its recursion consumed, at the recorded offsets. -/
def discovery_requests (puuid : String) (pages : Nat → List (List String)) :
    List Request :=
  queues.foldl
    (fun acc q =>
      acc ++ (get_matches_by_queue ([] : List String) 0 (pages q)).requests.map
        (fun r => Request.listing puuid q r.1)) []

/-- `User.__init__` (user.py 31-45): the five `riot_id` fields are copied;
`puuid` comes from the `puuid` kwarg when present, otherwise from a
`get_puuid` call (one account request); `matches_list` comes from the
`matches_list` kwarg when present, otherwise from `get_all_matches`
(the paginated listing requests).  Returns the constructed object together
with the list of requests the construction sent. -/
def init (riot_id : RiotId) (env : ApiEnv)
    (kw_puuid : Option String) (kw_matches : Option (List String)) :
    User × List Request :=
  let pr : String × List Request :=
    match kw_puuid with
    | some p => (p, [])
    | none =>
      (env.puuid_of riot_id.summoners_name riot_id.summoners_tag,
       [Request.account riot_id.summoners_name riot_id.summoners_tag])
  let mr : List String × List Request :=
    match kw_matches with
    | some m => (m, [])
    | none => (get_all_matches env.pages, discovery_requests pr.1 env.pages)
  (⟨riot_id.summoners_name, riot_id.summoners_tag, riot_id.summoners_region,
    riot_id.encoded_summoners_name, riot_id.encoded_summoners_tag,
    pr.1, mr.1, none, none⟩,
   pr.2 ++ mr.2)

/-- The contents of a persisted `identity.json` file: `User.save` dumps the
object's whole attribute dict, so the record carries exactly the fields
`__init__` assigned. -/
structure UserData where
  summoners_name : String
  summoners_tag : String
  summoners_region : String
  encoded_summoners_name : String
  encoded_summoners_tag : String
  puuid : String
  matches_list : List String
deriving DecidableEq, Repr

/-- `User.load_from_json` (user.py 47-77): rebuilds the `riot_id` dict from
the stored record and calls `__init__` with both the `puuid` and the
`matches_list` kwargs set to the stored values. -/
def load_from_json (d : UserData) (env : ApiEnv) : User × List Request :=
  init ⟨d.summoners_name, d.summoners_tag, d.summoners_region,
        d.encoded_summoners_name, d.encoded_summoners_tag⟩
    env (some d.puuid) (some d.matches_list)

/-- `User.refresh_user_matches` (user.py 132-136):
`matches_list = list(set(matches_list + newly_fetched))`.  Python's
`set` construction is modelled by `List.dedup`; the claims about this
function only concern membership, which `dedup` preserves exactly. -/
def refresh_user_matches (u : User) (env : ApiEnv) : User :=
  { u with matches_list := (u.matches_list ++ get_all_matches env.pages).dedup }

/-- ASCII alphanumeric character class `[a-zA-Z0-9]` of the filename
pattern in `find_unfetched_matchs`. -/
def isAsciiAlnum (c : Char) : Bool :=
  (('a' ≤ c && c ≤ 'z') || ('A' ≤ c && c ≤ 'Z') || ('0' ≤ c && c ≤ '9'))

/-- The regex `^[a-zA-Z0-9]{2,5}_[0-9]+\.json$` (user.py 238): 2-5
alphanumerics, underscore, at least one digit, and the `.json` extension.
Both character runs are parsed greedily, which is equivalent to the regex
here because `_` is not alphanumeric and `.` is not a digit. -/
def isMatchFile (s : String) : Bool :=
  let cs := s.toList
  let p := cs.takeWhile isAsciiAlnum
  let r := cs.dropWhile isAsciiAlnum
  decide (2 ≤ p.length) && decide (p.length ≤ 5) &&
    match r with
    | '_' :: r2 =>
      let d := r2.takeWhile Char.isDigit
      let r3 := r2.dropWhile Char.isDigit
      decide (1 ≤ d.length) && decide (r3 = ".json".toList)
    | _ => false

/-- Python's `file.split(".json")[0]` (user.py 243): the characters before
the first occurrence of `".json"`. -/
def beforeDotJson : List Char → List Char
  | [] => []
  | c :: rest =>
    if List.isPrefixOf ".json".toList (c :: rest) then []
    else c :: beforeDotJson rest

/-- A raised Python exception. -/
inductive PyErr
  | attributeError (name : String)
deriving DecidableEq, Repr

/-- `User.find_unfetched_matchs` (user.py 213-250).  `matchs_folder_content`
is the directory listing of `data/raw/<name>#<tag>/matchs`.  The function
collects the already-fetched ids from filenames matching the pattern, then
iterates `self.flex_matchs_list + self.solo_duo_matchs_list` — attributes
that `__init__` never assigns, so the read raises `AttributeError` on every
`User` this repository constructs. -/
def find_unfetched_matchs (u : User) (matchs_folder_content : List String) :
    Except PyErr (List String) :=
  let already_fetched_files : List String :=
    (matchs_folder_content.filter isMatchFile).map
      (fun f => String.mk (beforeDotJson f.toList))
  match u.flex_matchs_list with
  | none => .error (.attributeError "flex_matchs_list")
  | some flex =>
    match u.solo_duo_matchs_list with
    | none => .error (.attributeError "solo_duo_matchs_list")
    | some solo =>
      .ok ((flex ++ solo).filter (fun m => !already_fetched_files.contains m))

/-- An HTTP response: status code and raw body. -/
structure HttpResponse where
  status_code : Nat
  body : String
deriving DecidableEq, Repr

/-- An observable side effect of the collector: a `time.sleep`, an outgoing
request, or a file written (path relative to the user's matchs folder,
with its content). -/
inductive Ev
  | sleep (seconds : Nat)
  | req (r : Request)
  | fileWrite (path content : String)
deriving DecidableEq, Repr

/-- `User.fetch_match` (user.py 252-298) under response `resp` for
`match_id`: one detail request is sent; on 200 the body is dumped to
`f"{match_id}.json"` inside the user's matchs folder; on 404 only a log
line is printed (no file, no exception); on any other status an
`Exception("Non-success status code: ...")` is raised (second component). -/
def fetch_match_trace (match_id : String) (resp : HttpResponse) :
    List Ev × Option String :=
  if resp.status_code = 200 then
    ([.req (.matchDetail match_id),
      .fileWrite (match_id ++ ".json") resp.body], none)
  else if resp.status_code = 404 then
    ([.req (.matchDetail match_id)], none)
  else
    ([.req (.matchDetail match_id)],
     some ("Non-success status code: " ++ toString resp.status_code))

/-- One response of the match-listing endpoint: the HTTP status code and,
for a 200, the page of match ids carried in the JSON body. -/
structure ListingResponse where
  status_code : Nat
  pageIds : List String
deriving DecidableEq, Repr

/-- `User.get_matches_by_queue` (user.py 145-185) including its error
branch: each recursion step sends one listing request for `start_index`;
on a 200 the page is appended and the recursion continues with
`start_index + 100` exactly while the page has 100 entries; on any other
status the `Exception("Non-success status code: ...")` is raised
immediately — the function calls `requests.get` directly, so there is no
sleep and no retry anywhere in it.  `responses` is the stream of responses
the endpoint gives at offsets `start_index`, `start_index + 100`, ...;
past its end the endpoint keeps answering 200 with an empty page (same
convention as the success-only model above). -/
def get_matches_by_queue_http (puuid : String) (queue : Nat)
    (matchs_list : List String) (start_index : Nat) :
    List ListingResponse → List Ev × Except String (List String)
  | [] => ([.req (.listing puuid queue start_index)], .ok matchs_list)
  | r :: rest =>
    if r.status_code = 200 then
      if r.pageIds.length = 100 then
        let t := get_matches_by_queue_http puuid queue
          (matchs_list ++ r.pageIds) (start_index + 100) rest
        (.req (.listing puuid queue start_index) :: t.1, t.2)
      else
        ([.req (.listing puuid queue start_index)],
         .ok (matchs_list ++ r.pageIds))
    else
      ([.req (.listing puuid queue start_index)],
       .error ("Non-success status code: " ++ toString r.status_code))

/-- On an all-200 response stream the status-aware listing model agrees
with the success-only page model: the recursion succeeds with the same
accumulated ids, and it sends one listing request per `(offset, count)`
pair the success-only model records. -/
theorem get_matches_by_queue_http_ok (puuid : String) (queue : Nat) :
    ∀ (responses : List ListingResponse),
      (∀ r ∈ responses, r.status_code = 200) →
      ∀ (acc : List String) (start : Nat),
        get_matches_by_queue_http puuid queue acc start responses =
          ((get_matches_by_queue acc start
              (responses.map (fun r => r.pageIds))).requests.map
             (fun p => Ev.req (.listing puuid queue p.1)),
           .ok (get_matches_by_queue acc start
              (responses.map (fun r => r.pageIds))).ids) := by
  intro responses
  induction responses with
  | nil =>
    intro _ acc start
    simp [get_matches_by_queue_http, get_matches_by_queue]
  | cons r rest ih =>
    intro h200 acc start
    have hr : r.status_code = 200 := h200 r (by simp)
    have hrest : ∀ x ∈ rest, x.status_code = 200 :=
      fun x hx => h200 x (by simp [hx])
    by_cases hp : r.pageIds.length = 100
    · rw [get_matches_by_queue_http, if_pos hr, if_pos hp, ih hrest]
      simp only [List.map_cons]
      rw [get_matches_by_queue, if_pos hp]
      simp
    · rw [get_matches_by_queue_http, if_pos hr, if_neg hp]
      simp only [List.map_cons]
      rw [get_matches_by_queue, if_neg hp]
      simp

end UserM

namespace CollectionM

open UserM

/-- The world `Collection.fetch_collection_matchs` runs against:
the response of the match-detail endpoint for each match id, and the
directory listing of `data/raw/<handle>/matchs` for each player handle. -/
structure WorldEnv where
  matchResp : String → HttpResponse
  matchsDir : String → List String

/-- The folder key `f"{summoners_name}#{summoners_tag}"` used throughout
user.py and collection.py. -/
def handleOf (u : User) : String :=
  u.summoners_name ++ "#" ++ u.summoners_tag

/-- The inner loop of `fetch_collection_matchs` (collection.py 92-101) for
one user: iterate `user_object.matches_list`; for each match in
`unfetched_matchs`, increment `request_count`, sleep 120 s when
`request_count % 100 == 0 and request_count != 0`, then run `fetch_match`.
Returns the final counter, the event trace, and the error of the first
failing `fetch_match` (which aborts the iteration, as an uncaught Python
exception would). -/
def userFetchLoop (resp : String → HttpResponse) (request_count : Nat)
    (unfetched : List String) : List String → Nat × List Ev × Option String
  | [] => (request_count, [], none)
  | m :: ms =>
    if m ∈ unfetched then
      let c := request_count + 1
      let pauseEvs : List Ev := if c % 100 = 0 ∧ c ≠ 0 then [.sleep 120] else []
      let fr := fetch_match_trace m (resp m)
      match fr.2 with
      | some e => (c, pauseEvs ++ fr.1, some e)
      | none =>
        let rest := userFetchLoop resp c unfetched ms
        (rest.1, pauseEvs ++ fr.1 ++ rest.2.1, rest.2.2)
    else
      userFetchLoop resp request_count unfetched ms

/-- An exception escaping `fetch_collection_matchs`: the `AttributeError`
raised by `find_unfetched_matchs`, or the `Exception` raised by a failing
`fetch_match`. -/
inductive Failure
  | attr (e : PyErr)
  | http (msg : String)
deriving DecidableEq, Repr

/-- `Collection.fetch_collection_matchs` (collection.py 61-102): a single
`request_count` initialised to 0 is threaded through the whole roster; for
each user, `find_unfetched_matchs` is called and then the per-user fetch
loop runs.  There is no `try`/`except` anywhere in collection.py or
main.py, so an exception from either call aborts the remaining roster
(the error is returned with the trace accumulated so far). -/
def fetch_collection_matchs (env : WorldEnv) :
    List User → Nat → List Ev × Option Failure
  | [], _ => ([], none)
  | u :: rest, request_count =>
    match find_unfetched_matchs u (env.matchsDir (handleOf u)) with
    | .error e => ([], some (.attr e))
    | .ok unfetched =>
      let r := userFetchLoop env.matchResp request_count unfetched u.matches_list
      match r.2.2 with
      | some e => (r.2.1, some (.http e))
      | none =>
        let rr := fetch_collection_matchs env rest r.1
        (r.2.1 ++ rr.1, rr.2)

/-- One whole `main.py` run, restricted to its outgoing-request behaviour:
first each summoner missing from the collection is constructed with
`User(riot_id, api_key)` (issuing its identity-resolution and discovery
requests, which touch no counter), then `fetch_collection_matchs` runs
with its local `request_count` starting at 0. -/
def main_run (env : WorldEnv) (new_users : List (RiotId × ApiEnv))
    (users : List User) : List Ev × Option Failure :=
  let discEvs :=
    (new_users.map (fun p => ((init p.1 p.2 none none).2.map Ev.req))).flatten
  let fr := fetch_collection_matchs env users 0
  (discEvs ++ fr.1, fr.2)

/-- Is this event a `time.sleep`? -/
def isSleepEv : Ev → Bool
  | .sleep _ => true
  | _ => false

/-- Is this event an outgoing request (of any endpoint)? -/
def isReqEv : Ev → Bool
  | .req _ => true
  | _ => false

/-- Number of `time.sleep` pauses in a trace. -/
def countSleeps (tr : List Ev) : Nat := tr.countP isSleepEv

/-- Number of outgoing requests in a trace. -/
def totalRequests (tr : List Ev) : Nat := tr.countP isReqEv

/-- Number of requests issued strictly before the first pause of a trace. -/
def reqsBeforeFirstSleep (tr : List Ev) : Nat :=
  (tr.takeWhile (fun e => !isSleepEv e)).countP isReqEv

/-- The trace the fetch loop produces on a list of (all-selected,
all-successful) match ids when the counter starts at `c`: before the k-th
fetch (k counted from `c + 1`), a 120 s sleep exactly when `k` is a
multiple of 100, then the detail request and the file write. -/
def paceTrace (resp : String → HttpResponse) (c : Nat) : List String → List Ev
  | [] => []
  | m :: ms =>
    (if (c + 1) % 100 = 0 then [Ev.sleep 120] else []) ++
      Ev.req (.matchDetail m) ::
        Ev.fileWrite (m ++ ".json") (resp m).body :: paceTrace resp (c + 1) ms

end CollectionM

namespace UtilsM

/-- Outcome of `utils.get_request_handling_riot_limit_rate`: the response
handed back to the caller, how many GET requests went out, and the
`time.sleep` pauses (in seconds) performed. -/
structure ThrottleRun where
  response : UserM.HttpResponse
  requests : Nat
  sleeps : List Nat
deriving DecidableEq, Repr

/-- `utils.get_request_handling_riot_limit_rate` (utils.py 162-170): issue
the GET; if the status is 429, sleep 120 s and issue the GET once more,
returning whatever the second attempt yields — no status check and no
exception on the retry.  `first`/`retry` are the responses the remote
gives to the first and second attempt. -/
def get_request_handling_riot_limit_rate (first retry : UserM.HttpResponse) :
    ThrottleRun :=
  if first.status_code = 429 then
    ⟨retry, 2, [120]⟩
  else
    ⟨first, 1, []⟩

end UtilsM

namespace DbM

/-- A constructed `DB` object (db_management.py 5-9): it opens a sqlite
connection to `data/rfd/lol_history.db`; `ctor_args` records the positional
arguments the call site passed (the metaclass forwards but `DB.__init__`
ignores them). -/
structure DBInstance where
  connection : String
  ctor_args : List String
deriving DecidableEq, Repr

/-- `utils.SingletonMeta.__call__` (utils.py 18-26) specialised to `DB`:
the state is the `_instances` entry for the class (`none` before the first
construction).  A call builds a fresh instance only when none is stored;
otherwise the stored instance is returned and the arguments are ignored. -/
def singleton_call (state : Option DBInstance) (args : List String) :
    DBInstance × Option DBInstance :=
  match state with
  | some inst => (inst, some inst)
  | none =>
    let inst : DBInstance := ⟨"data/rfd/lol_history.db", args⟩
    (inst, some inst)

end DbM

/-- Folding an extend-style accumulation over a list flattens the per-element
results after the initial accumulator. -/
theorem foldl_append_flatten {α β : Type} (f : β → List α) :
    ∀ (l : List β) (a : List α),
      l.foldl (fun acc q => acc ++ f q) a = a ++ (l.map f).flatten := by
  intro l
  induction l with
  | nil => intro a; simp
  | cons b bs ih => intro a; simp [ih, List.append_assoc]

set_option maxRecDepth 4000 in
/-- C1: for every queue category, `get_matches_by_queue` requests pages
starting at offset 0 with page size 100 (`count=100` on each request),
increments the offset by 100 exactly while the last page had exactly 100
entries, stops on the first shorter page, and returns the accumulated ids;
on pages of lengths 100, 100, 37 it issues exactly the 3 requests at offsets
0, 100, 200 and returns all 237 ids, and on an empty first page it issues
exactly 1 request and returns nothing.  (The queue category only selects
which page stream the endpoint serves; the traversal logic is identical for
every queue.) -/
theorem claim_C1_pagination :
    (∀ (α : Type) (pages : List (List α)),
        (UserM.get_matches_by_queue ([] : List α) 0 pages).requests =
          (List.range ((pages.takeWhile (fun p => p.length == 100)).length + 1)).map
            (fun i => (100 * i, 100)) ∧
        (UserM.get_matches_by_queue ([] : List α) 0 pages).ids =
          (pages.takeWhile (fun p => p.length == 100)).flatten ++
            (pages.dropWhile (fun p => p.length == 100)).headD []) ∧
    UserM.get_matches_by_queue ([] : List Nat) 0
        [List.range 100, List.range' 100 100, List.range' 200 37] =
      ⟨List.range 237, [(0, 100), (100, 100), (200, 100)]⟩ ∧
    UserM.get_matches_by_queue ([] : List Nat) 0 [[]] = ⟨[], [(0, 100)]⟩ := by
  refine ⟨?_, by decide, by decide⟩
  intro α pages
  rw [UserM.get_matches_by_queue_eq]
  exact ⟨by simp, by simp⟩

/-- C2 (code bug): `find_unfetched_matchs` is supposed to return the known
match ids minus the ids already on disk, but it iterates
`self.flex_matchs_list + self.solo_duo_matchs_list` — attributes that
`__init__` (and hence `load_from_json`) never assigns — so on every `User`
this repository constructs it raises `AttributeError` instead, for any
on-disk directory content. -/
theorem claim_C2_delta_attribute_error :
    ∀ (d : UserM.UserData) (env : UserM.ApiEnv) (r : UserM.RiotId)
      (dir : List String),
      UserM.find_unfetched_matchs (UserM.load_from_json d env).1 dir =
          .error (.attributeError "flex_matchs_list") ∧
      UserM.find_unfetched_matchs (UserM.init r env none none).1 dir =
          .error (.attributeError "flex_matchs_list") := by
  intro d env r dir
  exact ⟨rfl, rfl⟩

/-- C5: `fetch_match` writes the payload to a file named exactly
`match_id + ".json"` on a 200 response; on a 404 it writes no file and
raises nothing; on any other status it raises and writes no file. -/
theorem claim_C5_fetch_match_outcomes :
    ∀ (match_id : String) (resp : UserM.HttpResponse),
      (resp.status_code = 200 →
        UserM.fetch_match_trace match_id resp =
          ([.req (.matchDetail match_id),
            .fileWrite (match_id ++ ".json") resp.body], none)) ∧
      (resp.status_code = 404 →
        UserM.fetch_match_trace match_id resp =
          ([.req (.matchDetail match_id)], none)) ∧
      (resp.status_code ≠ 200 → resp.status_code ≠ 404 →
        UserM.fetch_match_trace match_id resp =
          ([.req (.matchDetail match_id)],
           some ("Non-success status code: " ++ toString resp.status_code))) := by
  intro match_id resp
  refine ⟨fun h => ?_, fun h => ?_, fun h1 h2 => ?_⟩
  · simp [UserM.fetch_match_trace, h]
  · simp [UserM.fetch_match_trace, h]
  · simp [UserM.fetch_match_trace, h1, h2]

/-- Witness for C5 at status codes 200, 404 and 500. -/
theorem claim_C5_fetch_match_outcomes_witness :
    UserM.fetch_match_trace "NA1_7" ⟨200, "payload"⟩ =
      ([.req (.matchDetail "NA1_7"), .fileWrite ("NA1_7" ++ ".json") "payload"],
       none) ∧
    UserM.fetch_match_trace "NA1_7" ⟨404, "payload"⟩ =
      ([.req (.matchDetail "NA1_7")], none) ∧
    UserM.fetch_match_trace "NA1_7" ⟨500, "payload"⟩ =
      ([.req (.matchDetail "NA1_7")],
       some ("Non-success status code: " ++ toString 500)) :=
  ⟨(claim_C5_fetch_match_outcomes "NA1_7" ⟨200, "payload"⟩).1 rfl,
   (claim_C5_fetch_match_outcomes "NA1_7" ⟨404, "payload"⟩).2.1 rfl,
   (claim_C5_fetch_match_outcomes "NA1_7" ⟨500, "payload"⟩).2.2
     (by decide) (by decide)⟩

/-- C7: after any number of discovery refreshes, every previously known
match id is still in `matches_list` — `refresh_user_matches` only adds. -/
theorem claim_C7_monotone_known_set :
    ∀ (u : UserM.User) (envs : List UserM.ApiEnv) (x : String),
      x ∈ u.matches_list →
      x ∈ (envs.foldl UserM.refresh_user_matches u).matches_list := by
  intro u envs
  induction envs generalizing u with
  | nil => intro x hx; simpa using hx
  | cons e es ih =>
    intro x hx
    simp only [List.foldl_cons]
    refine ih _ x ?_
    simp only [UserM.refresh_user_matches, List.mem_dedup, List.mem_append]
    exact Or.inl hx

/-- Sample user for witnesses: constructed attributes as `__init__` leaves
them. -/
def sampleUser : UserM.User :=
  ⟨"Scan", "EUW", "europe", "Scan", "EUW", "puuid-1", ["EUW1_1"], none, none⟩

/-- Sample remote environment with empty listings. -/
def sampleEnv : UserM.ApiEnv :=
  ⟨fun _ _ => "puuid-1", fun _ => []⟩

/-- Witness for C7: one concrete refresh keeps the known id. -/
theorem claim_C7_monotone_known_set_witness :
    "EUW1_1" ∈ (List.foldl UserM.refresh_user_matches sampleUser
      [sampleEnv]).matches_list :=
  claim_C7_monotone_known_set sampleUser [sampleEnv] "EUW1_1" (by decide)

/-- C8: an id is in the output of `get_all_matches` iff some queue category
of the fixed set 400, 420, 430, 440, 450 reported it through its paginated
enumeration. -/
theorem claim_C8_discovery_union :
    ∀ (env : Nat → List (List String)) (x : String),
      x ∈ UserM.get_all_matches env ↔
        ∃ q ∈ [400, 420, 430, 440, 450],
          x ∈ (UserM.get_matches_by_queue ([] : List String) 0 (env q)).ids := by
  intro env x
  unfold UserM.get_all_matches
  rw [foldl_append_flatten]
  simp [UserM.queues]

/-- C9: loading a persisted identity reconstructs every field verbatim
(puuid and known match ids included) and sends no request; a fresh
construction (no persisted identity) sends the identity-resolution request
followed by the discovery requests. -/
theorem claim_C9_load_verbatim_offline :
    ∀ (d : UserM.UserData) (env : UserM.ApiEnv),
      ((UserM.load_from_json d env).1.summoners_name = d.summoners_name ∧
       (UserM.load_from_json d env).1.summoners_tag = d.summoners_tag ∧
       (UserM.load_from_json d env).1.summoners_region = d.summoners_region ∧
       (UserM.load_from_json d env).1.encoded_summoners_name =
         d.encoded_summoners_name ∧
       (UserM.load_from_json d env).1.encoded_summoners_tag =
         d.encoded_summoners_tag ∧
       (UserM.load_from_json d env).1.puuid = d.puuid ∧
       (UserM.load_from_json d env).1.matches_list = d.matches_list) ∧
      (UserM.load_from_json d env).2 = [] ∧
      (∀ r : UserM.RiotId,
        (UserM.init r env none none).2 =
          UserM.Request.account r.summoners_name r.summoners_tag ::
            UserM.discovery_requests
              (env.puuid_of r.summoners_name r.summoners_tag) env.pages) := by
  intro d env
  exact ⟨⟨rfl, rfl, rfl, rfl, rfl, rfl, rfl⟩, rfl, fun r => rfl⟩

/-- C10: the `DB` constructor is a per-process singleton — after the first
construction, every later `DB(...)` returns the same instance (hence the
same connection), whatever arguments it is called with. -/
theorem claim_C10_db_singleton :
    ∀ (s0 : Option DbM.DBInstance) (a1 a2 : List String),
      (DbM.singleton_call (DbM.singleton_call s0 a1).2 a2).1 =
          (DbM.singleton_call s0 a1).1 ∧
      (DbM.singleton_call (DbM.singleton_call s0 a1).2 a2).1.connection =
          (DbM.singleton_call s0 a1).1.connection ∧
      (DbM.singleton_call (DbM.singleton_call s0 a1).2 a2).2 =
          some (DbM.singleton_call s0 a1).1 := by
  intro s0 a1 a2
  cases s0 <;> simp [DbM.singleton_call]

/-- When every match-detail response is a 200, the per-user fetch loop
never aborts, adds exactly one to the counter per selected match, and
emits the `paceTrace` of the selected sublist of `matches_list`. -/
theorem userFetchLoop_eq (resp : String → UserM.HttpResponse)
    (h200 : ∀ m, (resp m).status_code = 200) (uf : List String) :
    ∀ (ms : List String) (c : Nat),
      CollectionM.userFetchLoop resp c uf ms =
        (c + (ms.filter (fun m => decide (m ∈ uf))).length,
         CollectionM.paceTrace resp c (ms.filter (fun m => decide (m ∈ uf))),
         none) := by
  intro ms
  induction ms with
  | nil =>
    intro c
    simp [CollectionM.userFetchLoop, CollectionM.paceTrace]
  | cons m ms ih =>
    intro c
    by_cases hm : m ∈ uf
    · have hfr : UserM.fetch_match_trace m (resp m) =
          ([.req (.matchDetail m), .fileWrite (m ++ ".json") (resp m).body],
           none) := by
        simp [UserM.fetch_match_trace, h200 m]
      have hsel : List.filter (fun x => decide (x ∈ uf)) (m :: ms) =
          m :: List.filter (fun x => decide (x ∈ uf)) ms := by
        simp [List.filter_cons, hm]
      have hpe : ((c + 1) % 100 = 0 ∧ c + 1 ≠ 0) ↔ ((c + 1) % 100 = 0) :=
        and_iff_left (Nat.succ_ne_zero c)
      simp only [CollectionM.userFetchLoop, if_pos hm, hfr, ih, hsel,
        CollectionM.paceTrace, List.length_cons, Prod.mk.injEq]
      refine ⟨by omega, ?_, trivial⟩
      simp [hpe, List.append_assoc]
    · have hsel : List.filter (fun x => decide (x ∈ uf)) (m :: ms) =
          List.filter (fun x => decide (x ∈ uf)) ms := by
        simp [List.filter_cons, hm]
      simp only [CollectionM.userFetchLoop, if_neg hm, ih, hsel]

/-- The number of 120-second pauses in the pace trace of `l` fetches with
the counter starting at `c` is the number of multiples of 100 in the
interval `(c, c + l.length]`. -/
theorem countSleeps_paceTrace (resp : String → UserM.HttpResponse) :
    ∀ (l : List String) (c : Nat),
      CollectionM.countSleeps (CollectionM.paceTrace resp c l) =
        (c + l.length) / 100 - c / 100 := by
  intro l
  induction l with
  | nil =>
    intro c
    simp [CollectionM.paceTrace, CollectionM.countSleeps]
  | cons m ms ih =>
    intro c
    by_cases hc : (c + 1) % 100 = 0
    · have ihc := ih (c + 1)
      simp only [CollectionM.countSleeps] at ihc
      simp only [CollectionM.paceTrace, if_pos hc, List.singleton_append,
        CollectionM.countSleeps, List.countP_cons]
      simp only [CollectionM.isSleepEv, List.length_cons, if_true, if_false,
        eq_self_iff_true, Bool.false_eq_true, ite_true, ite_false]
      have h1 : c / 100 ≤ (c + 1) / 100 := Nat.div_le_div_right (by omega)
      have h2 : (c + 1) / 100 ≤ (c + 1 + ms.length) / 100 :=
        Nat.div_le_div_right (by omega)
      omega
    · have ihc := ih (c + 1)
      simp only [CollectionM.countSleeps] at ihc
      simp only [CollectionM.paceTrace, if_neg hc, List.nil_append,
        CollectionM.countSleeps, List.countP_cons]
      simp only [CollectionM.isSleepEv, List.length_cons, if_true, if_false,
        eq_self_iff_true, Bool.false_eq_true, ite_true, ite_false]
      have h1 : c / 100 ≤ (c + 1) / 100 := Nat.div_le_div_right (by omega)
      have h2 : (c + 1) / 100 ≤ (c + 1 + ms.length) / 100 :=
        Nat.div_le_div_right (by omega)
      omega

/-- Every pause in a pace trace sits immediately before a fetch request,
namely the one whose (1-based, counter-offset) ordinal is a multiple of
100: if the trace splits at a `sleep 120`, the requests already emitted
plus the starting counter plus one form a multiple of 100, and the next
event is a match-detail request. -/
theorem paceTrace_sleep_split (resp : String → UserM.HttpResponse) :
    ∀ (l : List String) (c : Nat) (tr1 tr2 : List UserM.Ev),
      CollectionM.paceTrace resp c l = tr1 ++ UserM.Ev.sleep 120 :: tr2 →
        (c + tr1.countP CollectionM.isReqEv + 1) % 100 = 0 ∧
        ∃ m tr3, tr2 = UserM.Ev.req (UserM.Request.matchDetail m) :: tr3 := by
  intro l
  induction l with
  | nil =>
    intro c tr1 tr2 h
    rw [CollectionM.paceTrace] at h
    exact absurd h.symm (by simp)
  | cons m ms ih =>
    intro c tr1 tr2 h
    rw [CollectionM.paceTrace] at h
    by_cases hc : (c + 1) % 100 = 0
    · rw [if_pos hc, List.singleton_append] at h
      cases tr1 with
      | nil =>
        rw [List.nil_append] at h
        injection h with h1 h2
        refine ⟨by simpa using hc, m, _, h2.symm⟩
      | cons a tr1' =>
        rw [List.cons_append] at h
        injection h with ha h
        cases tr1' with
        | nil =>
          rw [List.nil_append] at h
          injection h with h1 h2
          simp at h1
        | cons b tr1'' =>
          rw [List.cons_append] at h
          injection h with hb h
          cases tr1'' with
          | nil =>
            rw [List.nil_append] at h
            injection h with h1 h2
            simp at h1
          | cons d tr1''' =>
            rw [List.cons_append] at h
            injection h with hd h
            obtain ⟨hmod, hex⟩ := ih (c + 1) tr1''' tr2 h
            refine ⟨?_, hex⟩
            subst ha; subst hb; subst hd
            simp only [List.countP_cons, CollectionM.isReqEv]
            simp only [Bool.false_eq_true, eq_self_iff_true, ite_true, ite_false]
            omega
    · rw [if_neg hc, List.nil_append] at h
      cases tr1 with
      | nil =>
        rw [List.nil_append] at h
        injection h with h1 h2
        simp at h1
      | cons a tr1' =>
        rw [List.cons_append] at h
        injection h with ha h
        cases tr1' with
        | nil =>
          rw [List.nil_append] at h
          injection h with h1 h2
          simp at h1
        | cons b tr1'' =>
          rw [List.cons_append] at h
          injection h with hb h
          obtain ⟨hmod, hex⟩ := ih (c + 1) tr1'' tr2 h
          refine ⟨?_, hex⟩
          subst ha; subst hb
          simp only [List.countP_cons, CollectionM.isReqEv]
          simp only [Bool.false_eq_true, eq_self_iff_true, ite_true, ite_false]
          omega

/-- All-200 match-detail responses with body `"body"`. -/
def resp200 : String → UserM.HttpResponse := fun _ => ⟨200, "body"⟩

/-- World with all-200 match-detail responses and empty matchs folders. -/
def env200 : CollectionM.WorldEnv := ⟨resp200, fun _ => []⟩

/-- C4 counterexample: a match-fetch request whose response is rate-limited
(429) is neither followed by a 120 s pause nor retried — `fetch_match` calls
`requests.get` directly, so its trace contains no sleep and only one
request for the id, contradicting the claimed pause-and-retry-once
behaviour. -/
theorem claim_C4_counterexample :
    ¬ (UserM.Ev.sleep 120 ∈ (UserM.fetch_match_trace "NA1_1" ⟨429, ""⟩).1 ∧
       (UserM.fetch_match_trace "NA1_1" ⟨429, ""⟩).1.countP
         (fun e => e == UserM.Ev.req (.matchDetail "NA1_1")) = 2) := by
  decide

/-- C4 (amended): the only throttle backoff in the code base is
`utils.get_request_handling_riot_limit_rate`, which on a 429 sleeps 120 s
and retries exactly once but hands back the retry's response whatever its
status (it never raises); neither the match-fetch path nor the discovery
path uses it — on any non-200/404 status (429 included) `fetch_match`
issues exactly the one request, sleeps never, and raises immediately, and
a discovery listing request whose response has any non-200 status (429
included) makes `get_matches_by_queue` raise immediately after that single
request, while its whole traversal never sleeps at all. -/
theorem claim_C4_throttle_behaviour :
    (∀ first retry : UserM.HttpResponse,
       (first.status_code = 429 →
         UtilsM.get_request_handling_riot_limit_rate first retry =
           ⟨retry, 2, [120]⟩) ∧
       (first.status_code ≠ 429 →
         UtilsM.get_request_handling_riot_limit_rate first retry =
           ⟨first, 1, []⟩)) ∧
    (∀ (match_id : String) (resp : UserM.HttpResponse),
       resp.status_code ≠ 200 → resp.status_code ≠ 404 →
         (UserM.fetch_match_trace match_id resp).1 =
             [.req (.matchDetail match_id)] ∧
         CollectionM.countSleeps (UserM.fetch_match_trace match_id resp).1 = 0 ∧
         (UserM.fetch_match_trace match_id resp).2.isSome) ∧
    (∀ (puuid : String) (queue : Nat) (acc : List String) (start : Nat)
       (r : UserM.ListingResponse) (rest : List UserM.ListingResponse),
       r.status_code ≠ 200 →
         UserM.get_matches_by_queue_http puuid queue acc start (r :: rest) =
           ([.req (.listing puuid queue start)],
            .error ("Non-success status code: " ++ toString r.status_code))) ∧
    (∀ (puuid : String) (queue : Nat) (acc : List String) (start : Nat)
       (responses : List UserM.ListingResponse),
       CollectionM.countSleeps
         (UserM.get_matches_by_queue_http puuid queue acc start
           responses).1 = 0) := by
  refine ⟨fun first retry => ⟨fun h => ?_, fun h => ?_⟩,
          fun match_id resp h1 h2 => ?_,
          fun puuid queue acc start r rest h => ?_,
          fun puuid queue acc start responses => ?_⟩
  · simp [UtilsM.get_request_handling_riot_limit_rate, h]
  · simp [UtilsM.get_request_handling_riot_limit_rate, h]
  · simp [UserM.fetch_match_trace, h1, h2, CollectionM.countSleeps,
      CollectionM.isSleepEv]
  · rw [UserM.get_matches_by_queue_http, if_neg h]
  · induction responses generalizing acc start with
    | nil =>
      simp [UserM.get_matches_by_queue_http, CollectionM.countSleeps,
        CollectionM.isSleepEv]
    | cons r rest ih =>
      by_cases hs : r.status_code = 200
      · by_cases hp : r.pageIds.length = 100
        · have ihc := ih (acc ++ r.pageIds) (start + 100)
          rw [UserM.get_matches_by_queue_http, if_pos hs, if_pos hp]
          simp only [CollectionM.countSleeps, List.countP_cons,
            CollectionM.isSleepEv] at ihc ⊢
          simpa using ihc
        · rw [UserM.get_matches_by_queue_http, if_pos hs, if_neg hp]
          simp [CollectionM.countSleeps, CollectionM.isSleepEv]
      · rw [UserM.get_matches_by_queue_http, if_neg hs]
        simp [CollectionM.countSleeps, CollectionM.isSleepEv]

/-- Witness for C4 at concrete 429/200/429 responses, for both the helper
and the fetch and discovery request paths. -/
theorem claim_C4_throttle_behaviour_witness :
    UtilsM.get_request_handling_riot_limit_rate ⟨429, ""⟩ ⟨429, ""⟩ =
        ⟨⟨429, ""⟩, 2, [120]⟩ ∧
    UtilsM.get_request_handling_riot_limit_rate ⟨200, "ok"⟩ ⟨429, ""⟩ =
        ⟨⟨200, "ok"⟩, 1, []⟩ ∧
    ((UserM.fetch_match_trace "NA1_1" ⟨429, ""⟩).1 =
        [.req (.matchDetail "NA1_1")] ∧
     CollectionM.countSleeps (UserM.fetch_match_trace "NA1_1" ⟨429, ""⟩).1 = 0 ∧
     (UserM.fetch_match_trace "NA1_1" ⟨429, ""⟩).2.isSome) ∧
    UserM.get_matches_by_queue_http "pa" 420 [] 0 [⟨429, []⟩] =
      ([.req (.listing "pa" 420 0)],
       .error ("Non-success status code: " ++ toString 429)) :=
  ⟨((claim_C4_throttle_behaviour.1 ⟨429, ""⟩ ⟨429, ""⟩).1 rfl),
   ((claim_C4_throttle_behaviour.1 ⟨200, "ok"⟩ ⟨429, ""⟩).2 (by decide)),
   claim_C4_throttle_behaviour.2.1 "NA1_1" ⟨429, ""⟩ (by decide) (by decide),
   claim_C4_throttle_behaviour.2.2.1 "pa" 420 [] 0 ⟨429, []⟩ [] (by decide)⟩

/-- A user whose first (and only) match fetch gets a 500 response. -/
def userFailA : UserM.User :=
  ⟨"A", "T1", "europe", "A", "T1", "pa", ["a"], some ["a"], some []⟩

/-- A second roster entry that should be processed after `userFailA`. -/
def userNextB : UserM.User :=
  ⟨"B", "T1", "europe", "B", "T1", "pb", ["b"], some ["b"], some []⟩

/-- World where match `"a"` yields a 500 and everything else succeeds. -/
def envAbort : CollectionM.WorldEnv :=
  ⟨fun m => if m = "a" then ⟨500, ""⟩ else ⟨200, "ok"⟩, fun _ => []⟩

/-- C6 counterexample: with a roster of two players where the first
player's only match fetch fails with a 500, the run does not finish
cleanly and the second player's match is never requested — the fatal
error is not caught at the Collection Manager boundary and the roster
loop does not proceed to the next player. -/
theorem claim_C6_counterexample :
    ¬ ((CollectionM.fetch_collection_matchs envAbort [userFailA, userNextB]
          0).2 = none ∧
       UserM.Ev.req (.matchDetail "b") ∈
         (CollectionM.fetch_collection_matchs envAbort [userFailA, userNextB]
           0).1) := by
  decide

/-- C6 (amended): there is no error handling at the Collection Manager
boundary — an `AttributeError` from `find_unfetched_matchs` or an
`Exception` from a player's `fetch_match` propagates out of
`fetch_collection_matchs`, so the run stops with that player's partial
trace and the remaining roster entries are never processed. -/
theorem claim_C6_error_aborts_roster :
    ∀ (env : CollectionM.WorldEnv) (u : UserM.User) (rest : List UserM.User)
      (c : Nat),
      (∀ e,
        UserM.find_unfetched_matchs u (env.matchsDir (CollectionM.handleOf u)) =
            .error e →
          CollectionM.fetch_collection_matchs env (u :: rest) c =
            ([], some (.attr e))) ∧
      (∀ uf e,
        UserM.find_unfetched_matchs u (env.matchsDir (CollectionM.handleOf u)) =
            .ok uf →
        (CollectionM.userFetchLoop env.matchResp c uf u.matches_list).2.2 =
            some e →
          CollectionM.fetch_collection_matchs env (u :: rest) c =
            ((CollectionM.userFetchLoop env.matchResp c uf u.matches_list).2.1,
             some (.http e))) := by
  intro env u rest c
  constructor
  · intro e he
    simp [CollectionM.fetch_collection_matchs, he]
  · intro uf e hf herr
    simp [CollectionM.fetch_collection_matchs, hf, herr]

/-- Witness for C6: the concrete aborting two-player run. -/
theorem claim_C6_error_aborts_roster_witness :
    CollectionM.fetch_collection_matchs envAbort [userFailA, userNextB] 0 =
      ((CollectionM.userFetchLoop envAbort.matchResp 0 ["a"]
          userFailA.matches_list).2.1,
       some (.http "Non-success status code: 500")) :=
  (claim_C6_error_aborts_roster envAbort userFailA [userNextB] 0).2
    ["a"] "Non-success status code: 500" rfl (by decide)

/-- 150 match ids for the first pacing-test user. -/
def idsA : List String := (List.range 150).map (fun n => "a" ++ toString n)

/-- 100 match ids for the second pacing-test user. -/
def idsB : List String := (List.range 100).map (fun n => "b" ++ toString n)

/-- First pacing-test user: 150 known matches, none fetched yet. -/
def userA : UserM.User :=
  ⟨"A", "T1", "europe", "A", "T1", "pa", idsA, some idsA, some []⟩

/-- Second pacing-test user: 100 known matches, none fetched yet. -/
def userB : UserM.User :=
  ⟨"B", "T1", "europe", "B", "T1", "pb", idsB, some idsB, some []⟩

/-- The event trace of a 250-fetch roster run (150 + 100 matches). -/
def pacingTrace : List UserM.Ev :=
  (CollectionM.fetch_collection_matchs env200 [userA, userB] 0).1

/-- Remote environment for a freshly-constructed user: every listing is
empty, so discovery issues exactly one request per queue. -/
def discEnv : UserM.ApiEnv := ⟨fun _ _ => "p-new", fun _ => []⟩

/-- Riot id of the freshly-constructed user. -/
def newRid : UserM.RiotId := ⟨"N", "T1", "europe", "N", "T1"⟩

/-- 95 match ids for the fetch phase of the combined-counting run. -/
def idsC : List String := (List.range 95).map (fun n => "c" ++ toString n)

/-- User with 95 unfetched matches. -/
def userC : UserM.User :=
  ⟨"C", "T1", "europe", "C", "T1", "pc", idsC, some idsC, some []⟩

/-- Trace of a whole run: 6 discovery requests (1 account + 5 queue
listings) for one new user, then 95 fetch requests — 101 requests in
total. -/
def mainTr : List UserM.Ev :=
  (CollectionM.main_run env200 [(newRid, discEnv)] [userC]).1

/-- 100 match ids for the pause-position run. -/
def idsD : List String := (List.range 100).map (fun n => "d" ++ toString n)

/-- User with exactly 100 unfetched matches. -/
def userD : UserM.User :=
  ⟨"D", "T1", "europe", "D", "T1", "pd", idsD, some idsD, some []⟩

/-- Trace of a 100-fetch run (its single pause sits before the 100th
request). -/
def tr100 : List UserM.Ev :=
  (CollectionM.fetch_collection_matchs env200 [userD] 0).1

/-- The pacing behaviour claim C1..: *after* every 100 requests issued a
pause occurs, i.e. the pause count is the number of completed hundreds of
requests and every pause is preceded by a positive multiple of 100
requests. -/
abbrev pausesAfterMultiples (tr : List UserM.Ev) : Prop :=
  CollectionM.countSleeps tr = CollectionM.totalRequests tr / 100 ∧
  ∀ i : Fin tr.length, CollectionM.isSleepEv (tr.get i) = true →
    (tr.take i.1).countP CollectionM.isReqEv % 100 = 0 ∧
      (tr.take i.1).countP CollectionM.isReqEv ≠ 0

set_option maxRecDepth 10000 in
set_option maxHeartbeats 1000000 in
/-- C3 counterexample: (a) in a whole run with 6 discovery requests and 95
fetch requests (101 outgoing requests in total) no pause at all occurs —
discovery requests are not counted by `request_count`; (b) in a pure
fetch run of exactly 100 requests, the single pause is preceded by only
99 requests, not a multiple of 100 — the loop sleeps *before* issuing the
100th request, not after it. -/
theorem claim_C3_counterexample :
    ¬ pausesAfterMultiples mainTr ∧ ¬ pausesAfterMultiples tr100 := by
  decide

set_option maxRecDepth 10000 in
set_option maxHeartbeats 1000000 in
/-- C3 (amended): `request_count` counts only the match-fetch requests of
`fetch_collection_matchs` (discovery requests are not counted), it is
shared across the whole roster within one run, and the 120 s pause fires
when the just-incremented counter is a multiple of 100, i.e. immediately
*before* issuing the 100th, 200th, ... fetch request: the loop equals the
pace trace of the selected matches, the number of pauses equals the number
of multiples of 100 the counter passes, every pause is followed directly
by the fetch request whose ordinal is the multiple of 100, and a concrete
250-fetch roster run (150 + 100 matches, counter shared across the two
players) pauses exactly twice, with 99 requests before the first pause
and 199 before the second. -/
theorem claim_C3_request_pacing :
    (∀ (resp : String → UserM.HttpResponse),
        (∀ m, (resp m).status_code = 200) →
        ∀ (uf ms : List String) (c : Nat),
          CollectionM.userFetchLoop resp c uf ms =
            (c + (ms.filter (fun m => decide (m ∈ uf))).length,
             CollectionM.paceTrace resp c (ms.filter (fun m => decide (m ∈ uf))),
             none)) ∧
    (∀ (resp : String → UserM.HttpResponse) (l : List String) (c : Nat),
        CollectionM.countSleeps (CollectionM.paceTrace resp c l) =
          (c + l.length) / 100 - c / 100) ∧
    (∀ (resp : String → UserM.HttpResponse) (l : List String) (c : Nat)
        (tr1 tr2 : List UserM.Ev),
        CollectionM.paceTrace resp c l = tr1 ++ UserM.Ev.sleep 120 :: tr2 →
          (c + tr1.countP CollectionM.isReqEv + 1) % 100 = 0 ∧
          ∃ m tr3, tr2 = UserM.Ev.req (UserM.Request.matchDetail m) :: tr3) ∧
    (CollectionM.countSleeps pacingTrace = 2 ∧
     CollectionM.totalRequests pacingTrace = 250 ∧
     pacingTrace[198]? = some (UserM.Ev.sleep 120) ∧
     (pacingTrace.take 198).countP CollectionM.isReqEv = 99 ∧
     pacingTrace[399]? = some (UserM.Ev.sleep 120) ∧
     (pacingTrace.take 399).countP CollectionM.isReqEv = 199 ∧
     (CollectionM.fetch_collection_matchs env200 [userA, userB] 0).2 = none) := by
  refine ⟨fun resp h200 uf ms c => userFetchLoop_eq resp h200 uf ms c,
          fun resp l c => countSleeps_paceTrace resp l c,
          fun resp l c tr1 tr2 h => paceTrace_sleep_split resp l c tr1 tr2 h,
          ?_⟩
  decide

/-- Witness for C3 at a one-match loop (all-200 responses) and at a pace
trace whose counter starts at 99. -/
theorem claim_C3_request_pacing_witness :
    CollectionM.userFetchLoop resp200 0 ["m"] ["m"] =
      (0 + (["m"].filter (fun m => decide (m ∈ (["m"] : List String)))).length,
       CollectionM.paceTrace resp200 0
         (["m"].filter (fun m => decide (m ∈ (["m"] : List String)))),
       none) ∧
    ((99 + ([] : List UserM.Ev).countP CollectionM.isReqEv + 1) % 100 = 0 ∧
     ∃ m tr3,
       [UserM.Ev.req (UserM.Request.matchDetail "m"),
        UserM.Ev.fileWrite ("m" ++ ".json") (resp200 "m").body] =
         UserM.Ev.req (UserM.Request.matchDetail m) :: tr3) :=
  ⟨claim_C3_request_pacing.1 resp200 (fun m => rfl) ["m"] ["m"] 0,
   claim_C3_request_pacing.2.2.1 resp200 ["m"] 99 []
     [UserM.Ev.req (UserM.Request.matchDetail "m"),
      UserM.Ev.fileWrite ("m" ++ ".json") (resp200 "m").body] (by decide)⟩
